import Mathlib

/-!
Shallow embedding of the vidstack Shaka provider integration layer:
`providers/shaka/shaka.ts` (ShakaController), `providers/shaka/events.ts`
(ShakaLibEventName), `providers/shaka/loader.ts` (ShakaProviderLoader),
the library loader `ShakaLibLoader` (lib-loader module) and
`ShakaProvider` (provider module).

The controller's interactions with the host media context (event bus
dispatches, state notifications, quality-list mutations) and with the
wrapped shaka player instance (configure, attach, selectVariantTrack)
are modelled as explicit effect traces: each handler is a pure function
from its inputs to the ordered list of calls it performs.
-/

/-- Model of the external helper camelToKebabCase from maverick.js/std:
a hyphen is inserted between a lowercase letter and the uppercase letter
that follows it, and the whole string is lowercased. -/
def camelToKebabChars : List Char → List Char
  | [] => []
  | [c] => [c.toLower]
  | a :: b :: rest =>
    if a.isLower ∧ b.isUpper then a.toLower :: '-' :: camelToKebabChars (b :: rest)
    else a.toLower :: camelToKebabChars (b :: rest)

/-- Model of camelToKebabCase on strings. -/
def camelToKebabCase (s : String) : String :=
  String.mk (camelToKebabChars s.data)

/-- Embeds toDOMEventType from shaka.ts: prefix the kebab-cased shaka
event type with the literal text shaka followed by a hyphen. -/
def toDOMEventType (type : String) : String :=
  "shaka-" ++ camelToKebabCase type

/-- A shaka error value (shaka.util.Error), reduced to the message the
controller reads. -/
structure ShakaErr where
  message : String
deriving DecidableEq, Repr

/-- A shaka variant track (shaka.extern.Track), reduced to the fields the
controller reads: id, width, height, bandwidth and videoCodec, each
nullable in the library's typings or defensively treated as such by the
controller. -/
structure Track where
  id : Option Int
  width : Option Int
  height : Option Int
  bandwidth : Option Int
  videoCodec : Option String
deriving DecidableEq, Repr

/-- A host video quality record, as built by ShakaController. -/
structure VideoQuality where
  id : String
  width : Int
  height : Int
  bitrate : Int
  codec : Option String
  index : Nat
deriving DecidableEq, Repr

/-- The shaka library events of events.ts, each with the payload fields
declared there. -/
inductive ShakaEv where
  | abrStatusChanged (newStatus : Bool)
  | error (detail : ShakaErr)
  | tracksChanged
  | loaded
  | manifestUpdated (isLive : Bool)
  | variantChanged (oldTrack newTrack : Option Track)
  | adaptation (oldTrack newTrack : Option Track)
deriving DecidableEq, Repr

/-- The type string of each event, as declared in events.ts. -/
def ShakaEv.type : ShakaEv → String
  | .abrStatusChanged _ => "abrstatuschanged"
  | .error _ => "error"
  | .tracksChanged => "trackschanged"
  | .loaded => "loaded"
  | .manifestUpdated _ => "manifestupdated"
  | .variantChanged _ _ => "variantchanged"
  | .adaptation _ _ => "adaptation"

/-- Object.values of the ShakaLibEventName enum, in declaration order. -/
def shakaLibEventNameValues : List String :=
  ["abrstatuschanged", "error", "trackschanged", "loaded",
   "manifestupdated", "variantchanged", "adaptation"]

/-- The detail payload carried by a DOM event the controller dispatches on
the host player: either a forwarded shaka event object, or the shaka
player instance (for the shaka-instance event). -/
inductive Detail where
  | ev (e : ShakaEv)
  | inst
deriving DecidableEq, Repr

/-- Tags for the bound handler functions ShakaController registers on the
shaka event manager. -/
inductive Handler where
  | dispatcher
  | onErrorH
  | onManifestUpdatedH
  | onLoadedH
  | onTracksChangedH
  | onVariantChangedH
deriving DecidableEq, Repr

/-- The shaka player configuration object (shaka.extern.PlayerConfiguration),
reduced to an opaque bag of top-level fields; spreading it copies those
fields. -/
structure ShakaConfig where
  fields : List (String × String)
deriving DecidableEq, Repr

/-- The shallow copy the spread syntax performs on the config object
before it is handed to configure. -/
def shallowCopyConfig (c : ShakaConfig) : ShakaConfig :=
  { fields := c.fields }

/-- One observable call made by the controller, either on the host media
context or on the shaka player instance. -/
inductive Effect where
  | polyfillInstallAll
  | newInstance
  | listen (event : String) (h : Handler)
  | callbackInvoked (id : Nat)
  | attach
  | hostDispatch (type : String) (detail : Detail)
  | configureInstance (cfg : ShakaConfig)
  | configureAbr (enabled : Bool)
  | setEnableAutoHook
  | listenQualitiesChange
  | setAutoQuality (b : Bool)
  | notifyStreamType (v : String)
  | addQuality (q : VideoQuality)
  | selectQualityById (id : String)
  | selectVariantTrack (t : Track)
  | notifyProviderSetup
  | loadSrc (s : String)
deriving DecidableEq, Repr

/-- Embeds the private dispatchShakaEvent method of ShakaController: the
received shaka event is re-dispatched on the host player bus as a DOM
event typed by toDOMEventType and carrying the event as its detail. -/
def dispatchShakaEvent (ev : ShakaEv) : List Effect :=
  [Effect.hostDispatch (toDOMEventType ev.type) (Detail.ev ev)]

/-- Embeds ShakaController.setup (shaka.ts lines 39-86), as the ordered
trace of calls it performs: install polyfills, construct the instance,
register the dispatcher for every ShakaLibEventName value, register the
error handler, invoke every registered onInstance callback (callbacks
identified by number), attach media, announce the instance, configure
with a spread copy of the config, register the state-translation
handlers, install the enable-auto hook and subscribe to host quality
changes. -/
def shakaControllerSetup (config : ShakaConfig) (callbacks : List Nat) : List Effect :=
  [Effect.polyfillInstallAll, Effect.newInstance]
    ++ shakaLibEventNameValues.map (fun n => Effect.listen n Handler.dispatcher)
    ++ [Effect.listen "error" Handler.onErrorH]
    ++ callbacks.map Effect.callbackInvoked
    ++ [Effect.attach,
        Effect.hostDispatch "shaka-instance" Detail.inst,
        Effect.configureInstance (shallowCopyConfig config),
        Effect.listen "manifestupdated" Handler.onManifestUpdatedH,
        Effect.listen "loaded" Handler.onLoadedH,
        Effect.listen "trackschanged" Handler.onTracksChangedH,
        Effect.listen "variantchanged" Handler.onVariantChangedH,
        Effect.listen "adaptation" Handler.onVariantChangedH,
        Effect.setEnableAutoHook,
        Effect.listenQualitiesChange]

/-- Embeds the setup callback ShakaProvider passes to ShakaLibLoader
(provider module, setup): once the constructor is obtained it runs the
controller setup, notifies provider-setup, and loads the pending source
when one exists. -/
def providerSetupOnLoaded (config : ShakaConfig) (callbacks : List Nat)
    (src : Option String) : List Effect :=
  shakaControllerSetup config callbacks
    ++ [Effect.notifyProviderSetup]
    ++ (match src with
        | some s => [Effect.loadSrc s]
        | none => [])

/-- Embeds the private onManifestUpdated handler (shaka.ts lines 114-120):
mark the quality selection as automatic, then notify the stream type as
live or on-demand according to the event's isLive flag. -/
def onManifestUpdated (isLive : Bool) : List Effect :=
  [Effect.setAutoQuality true,
   Effect.notifyStreamType (if isLive then "live" else "on-demand")]

/-- The quality record built for a filtered variant track at a given
index (shaka.ts lines 138-145): id is the track id rendered as a decimal
string with a dash-bitrate fallback when the id is nullish, width, height
and bandwidth fall back to 0, codec is the video codec. -/
def mkShakaQuality (t : Track) (index : Nat) : VideoQuality :=
  { id := (t.id.map (fun n => toString n)).getD ("dash-bitrate-" ++ toString index)
    width := t.width.getD 0
    height := t.height.getD 0
    bitrate := t.bandwidth.getD 0
    codec := t.videoCodec
    index := index }

/-- The forEach loop of onTracksChanged over the already-filtered variant
list, carrying the running index. -/
def addQualityEffects : List Track → Nat → List Effect
  | [], _ => []
  | t :: rest, i => Effect.addQuality (mkShakaQuality t i) :: addQualityEffects rest (i + 1)

/-- Embeds the private onTracksChanged handler (shaka.ts lines 131-149):
the variant tracks are filtered to those whose height is not null, and
each one is added to the host qualities list with its index in the
filtered list. -/
def onTracksChanged (variants : List Track) : List Effect :=
  addQualityEffects (variants.filter (fun t => t.height.isSome)) 0

/-- Embeds the private onVariantChanged handler (shaka.ts lines 151-158),
shared by the variantchanged and adaptation events. A null newTrack does
nothing. Otherwise the host quality looked up by the track id rendered as
a string is selected (getById composed with the list select symbol is
modelled as one selectQualityById effect). Reading id.toString() on a
nullish id would throw in JavaScript, which is modelled as none. -/
def onVariantChanged (newTrack : Option Track) : Option (List Effect) :=
  match newTrack with
  | none => some []
  | some t =>
    match t.id with
    | some n => some [Effect.selectQualityById (toString n)]
    | none => none

/-- Embeds the private enableAutoQuality method (shaka.ts lines 174-180):
configure abr.enabled to true when an instance exists. -/
def enableAutoQuality (hasInstance : Bool) : List Effect :=
  if hasInstance then [Effect.configureAbr true] else []

/-- Embeds the private disableAutoQuality method (shaka.ts lines 181-187):
configure abr.enabled to false when an instance exists. -/
def disableAutoQuality (hasInstance : Bool) : List Effect :=
  if hasInstance then [Effect.configureAbr false] else []

/-- The predicate of the find call in onUserQualityChange (shaka.ts line
169): the track id rendered as a string strictly equals the selected
quality id; a nullish track id renders as undefined and matches no
string. -/
def userQualityPred (selected : Option String) (t : Track) : Bool :=
  (t.id.map (fun n => toString n)) == selected

/-- Embeds the private onUserQualityChange handler (shaka.ts lines
160-172): return early when there is no instance, auto selection is on,
or nothing is selected; otherwise disable abr, then select the first
variant track whose id matches the selected quality id, when one exists. -/
def onUserQualityChange (hasInstance auto : Bool) (selected : Option String)
    (variants : List Track) : List Effect :=
  if !hasInstance || auto || selected.isNone then []
  else
    disableAutoQuality hasInstance
      ++ (match variants.find? (userQualityPred selected) with
          | some t => [Effect.selectVariantTrack t]
          | none => [])

/-- A shaka player constructor value, identified by a number. -/
structure Ctor where
  num : Nat
deriving DecidableEq, Repr

/-- The default export a dynamic-import loader can resolve to: either the
player constructor directly, or the shaka namespace (whose Player
property is the constructor). -/
inductive DefaultExport where
  | ctorE (c : Ctor)
  | nsE (player : Ctor)
deriving DecidableEq, Repr

/-- The outcome of calling a dynamic-import loader function: the promise
rejects, or it resolves with an optional default export (none models
both an undefined module and an undefined default export). -/
inductive ImportOutcome where
  | throws
  | ok (d : Option DefaultExport)
deriving DecidableEq, Repr

/-- The non-string forms of the ShakaLibrary union (types module): a
direct constructor reference, a namespace object carrying a Player
property, a dynamic-import loader function, or undefined. -/
inductive ImportLib where
  | ctorRef (c : Ctor)
  | nsObj (player : Ctor)
  | loaderFn (outcome : ImportOutcome)
  | undef
deriving DecidableEq, Repr

/-- The ShakaLibrary union: a remote script URL string, or one of the
non-string forms. -/
inductive ShakaLib where
  | str (url : String)
  | imported (l : ImportLib)
deriving DecidableEq, Repr

/-- The isString test applied to the configured library. -/
def ShakaLib.isStr : ShakaLib → Bool
  | .str _ => true
  | .imported _ => false

/-- The browser-side facts the lib loader observes: whether loadScript
succeeds, what window.shaka.Player is afterwards (none when it is not a
function), and what Player.isBrowserSupported() reports. -/
structure LoadEnv where
  scriptLoadOk : Bool
  windowPlayer : Option Ctor
  browserSupported : Bool
deriving DecidableEq, Repr

/-- One observable action of ShakaLibLoader: a DOM event dispatched on
the host player, an error notification with its code, or the invocation
of the success callback with the resolved constructor. -/
inductive LoadEv where
  | domEvent (name : String)
  | notifyError (code : Nat)
  | callbackInvoked (c : Ctor)
deriving DecidableEq, Repr

/-- The actions of the private onLoadStart handler of ShakaLibLoader. -/
def onLoadStartEvs : List LoadEv :=
  [LoadEv.domEvent "shaka-lib-load-start"]

/-- The actions of the private onLoaded handler of ShakaLibLoader:
dispatch shaka-lib-loaded, then invoke the success callback with the
constructor. -/
def onLoadedEvs (c : Ctor) : List LoadEv :=
  [LoadEv.domEvent "shaka-lib-loaded", LoadEv.callbackInvoked c]

/-- The actions of the private onLoadError handler of ShakaLibLoader:
dispatch shaka-lib-load-error, then notify an error with code 4. -/
def onLoadErrorEvs : List LoadEv :=
  [LoadEv.domEvent "shaka-lib-load-error", LoadEv.notifyError 4]

/-- Embeds loadShakaScript (lib-loader module): a non-string source
returns undefined immediately; otherwise onLoadStart fires, the script
is loaded, and window.shaka.Player is returned via onLoaded when it is a
function, while a script failure or a missing constructor goes through
onLoadError. Result: the resolved constructor and the action trace. -/
def loadShakaScript (lib : ShakaLib) (env : LoadEnv) : Option Ctor × List LoadEv :=
  match lib with
  | .imported _ => (none, [])
  | .str _ =>
    if env.scriptLoadOk then
      match env.windowPlayer with
      | some c => (some c, onLoadStartEvs ++ onLoadedEvs c)
      | none => (none, onLoadStartEvs ++ onLoadErrorEvs)
    else (none, onLoadStartEvs ++ onLoadErrorEvs)

/-- Embeds importShaka (lib-loader module) on the non-string library
forms: undefined yields undefined with no actions; a constructor
reference or a namespace object resolves directly through onLoaded; a
loader function is invoked and its default export used, unwrapping a
namespace, with a rejection or an invalid module going through
onLoadError. -/
def importShaka (l : ImportLib) : Option Ctor × List LoadEv :=
  match l with
  | .undef => (none, [])
  | .ctorRef c => (some c, onLoadStartEvs ++ onLoadedEvs c)
  | .nsObj p => (some p, onLoadStartEvs ++ onLoadedEvs p)
  | .loaderFn outcome =>
    match outcome with
    | .throws => (none, onLoadStartEvs ++ onLoadErrorEvs)
    | .ok none => (none, onLoadStartEvs ++ onLoadErrorEvs)
    | .ok (some (.ctorE c)) => (some c, onLoadStartEvs ++ onLoadedEvs c)
    | .ok (some (.nsE p)) => (some p, onLoadStartEvs ++ onLoadedEvs p)

/-- The constructor-resolution stage of the private startLoading method
of ShakaLibLoader (lib-loader module, lines 42-48): try the remote
script first, and only when that returned undefined and the library is
not a string, fall back to importShaka. -/
def resolveShakaCtor (lib : ShakaLib) (env : LoadEnv) : Option Ctor × List LoadEv :=
  let r1 := loadShakaScript lib env
  if r1.1.isNone && !lib.isStr then
    match lib with
    | .str _ => r1
    | .imported l =>
      let r2 := importShaka l
      (r2.1, r1.2 ++ r2.2)
  else r1

/-- Embeds the private startLoading method of ShakaLibLoader in full:
after constructor resolution, a missing constructor ends the process,
and an unsupported browser dispatches shaka-unsupported and an error
notification with code 4 and yields null. -/
def startLoading (lib : ShakaLib) (env : LoadEnv) : Option Ctor × List LoadEv :=
  let r := resolveShakaCtor lib env
  match r.1 with
  | none => (none, r.2)
  | some c =>
    if env.browserSupported then (some c, r.2)
    else (none, r.2 ++ [LoadEv.domEvent "shaka-unsupported", LoadEv.notifyError 4])

/-- The provider object constructed by ShakaProviderLoader.load, reduced
to the video target it wraps. -/
structure ShakaProviderModel where
  target : Option Nat
deriving DecidableEq, Repr

/-- Embeds ShakaProviderLoader.load (loader.ts lines 20-32): throw
server-side, throw in dev builds when no video target exists, otherwise
construct the provider on the target. -/
def shakaProviderLoaderLoad (server dev : Bool) (target : Option Nat) :
    Except String ShakaProviderModel :=
  if server then
    Except.error "[vidstack] can not load shaka provider server-side"
  else if dev && target.isNone then
    Except.error "[vidstack] `<video>` element was not found - did you forget to include `<media-provider>`?"
  else
    Except.ok { target := target }

/-- The environment facts of the support utilities: whether HLS and DASH
playback are supported. -/
structure SupportFlags where
  hls : Bool
  dash : Bool
deriving DecidableEq, Repr

/-- A source, reduced to which mime checks it passes. -/
structure SrcModel where
  isHLS : Bool
  isDASH : Bool
deriving DecidableEq, Repr

/-- Embeds the static supported field of ShakaProviderLoader (loader.ts
line 10): isHLSSupported() alone. -/
def shakaLoaderSupported (f : SupportFlags) : Bool :=
  f.hls

/-- Embeds ShakaProviderLoader.canPlay (loader.ts lines 14-16). -/
def shakaLoaderCanPlay (f : SupportFlags) (src : SrcModel) : Bool :=
  shakaLoaderSupported f && (src.isHLS || src.isDASH)

/-- Embeds the static supported field of ShakaProvider (provider module,
line 38): isHLSSupported() || isDASHSupported(). -/
def shakaProviderSupported (f : SupportFlags) : Bool :=
  f.hls || f.dash

/-- C1: during ShakaController.setup, for every event name in
ShakaLibEventName, a listener (the dispatcher) is registered on the
shaka player instance, and the dispatcher re-dispatches each received
event on the host player bus as a DOM event whose type is the literal
text shaka plus a hyphen followed by the kebab-cased shaka event type,
carrying the original event object as its detail. -/
theorem shaka_C1_event_forwarding (config : ShakaConfig) (cbs : List Nat)
    (name : String) (hmem : name ∈ shakaLibEventNameValues) :
    Effect.listen name Handler.dispatcher ∈ shakaControllerSetup config cbs
    ∧ ∀ ev : ShakaEv,
        dispatchShakaEvent ev
          = [Effect.hostDispatch ("shaka-" ++ camelToKebabCase ev.type) (Detail.ev ev)] := by
  constructor
  · simp only [shakaControllerSetup, List.append_assoc, List.mem_append, List.mem_map]
    exact Or.inr (Or.inl ⟨name, hmem, rfl⟩)
  · intro ev; rfl

/-- Witness for C1 at the manifestupdated event name. -/
theorem shaka_C1_witness :
    Effect.listen "manifestupdated" Handler.dispatcher
      ∈ shakaControllerSetup { fields := [] } []
    ∧ dispatchShakaEvent (ShakaEv.manifestUpdated true)
        = [Effect.hostDispatch ("shaka-" ++ camelToKebabCase "manifestupdated")
            (Detail.ev (ShakaEv.manifestUpdated true))] :=
  ⟨(shaka_C1_event_forwarding { fields := [] } [] "manifestupdated" (by decide)).1,
   (shaka_C1_event_forwarding { fields := [] } [] "manifestupdated" (by decide)).2
     (ShakaEv.manifestUpdated true)⟩

/-- C3: the manifestupdated handler marks the host quality selection as
automatic and notifies a stream-type-change of live exactly when the
event's isLive flag is true, and of on-demand otherwise. -/
theorem shaka_C3_manifest_updated (isLive : Bool) :
    onManifestUpdated isLive
      = [Effect.setAutoQuality true,
         Effect.notifyStreamType (if isLive then "live" else "on-demand")]
    ∧ (Effect.notifyStreamType "live" ∈ onManifestUpdated isLive ↔ isLive = true)
    ∧ (Effect.notifyStreamType "on-demand" ∈ onManifestUpdated isLive ↔ isLive = false)
    ∧ Effect.setAutoQuality true ∈ onManifestUpdated isLive := by
  cases isLive <;> decide

/-- C5: on a variantchanged or adaptation event, a non-null newTrack
selects the host quality whose id equals the track id rendered as a
string, and a null newTrack performs no host quality change. -/
theorem shaka_C5_variant_changed :
    (∀ t n, t.id = some n →
        onVariantChanged (some t) = some [Effect.selectQualityById (toString n)])
    ∧ onVariantChanged none = some [] := by
  constructor
  · intro t n h
    simp [onVariantChanged, h]
  · rfl

/-- Witness for C5 at a concrete track with id 3. -/
theorem shaka_C5_witness :
    onVariantChanged (some { id := some 3, width := none, height := none,
                             bandwidth := none, videoCodec := none })
      = some [Effect.selectQualityById "3"] :=
  shaka_C5_variant_changed.1
    { id := some 3, width := none, height := none, bandwidth := none, videoCodec := none }
    3 rfl

/-- C8: ShakaProviderLoader.load always throws the server-side error
message when invoked server-side, and a provider is only ever
constructed when not running server-side. -/
theorem shaka_C8_server_side_load :
    (∀ dev target, shakaProviderLoaderLoad true dev target
        = Except.error "[vidstack] can not load shaka provider server-side")
    ∧ (∀ server dev target p,
        shakaProviderLoaderLoad server dev target = Except.ok p → server = false) := by
  constructor
  · intro dev target; rfl
  · intro server dev target p h
    cases server
    · rfl
    · simp [shakaProviderLoaderLoad] at h

/-- Witness for C8: the server-side throw at concrete arguments, and a
concrete browser-side load that returns a provider. -/
theorem shaka_C8_witness :
    shakaProviderLoaderLoad true false (some 5)
      = Except.error "[vidstack] can not load shaka provider server-side"
    ∧ (false : Bool) = false :=
  ⟨shaka_C8_server_side_load.1 false (some 5),
   shaka_C8_server_side_load.2 false false (some 5) { target := some 5 } rfl⟩

/-- C9: the loader's canPlay accepts only when HLS is supported, so a
DASH source is rejected in a DASH-only environment even though the
provider's supported flag accepts it; canPlay is strictly stronger than
the provider's support predicate. -/
theorem shaka_C9_canplay_stronger :
    (∀ f src, shakaLoaderCanPlay f src = true → f.hls = true)
    ∧ (∀ src, shakaLoaderCanPlay { hls := false, dash := true } src = false)
    ∧ (∀ f src, shakaLoaderCanPlay f src = true → shakaProviderSupported f = true)
    ∧ (shakaProviderSupported { hls := false, dash := true } = true
        ∧ shakaLoaderCanPlay { hls := false, dash := true }
            { isHLS := false, isDASH := true } = false) := by
  refine ⟨?_, ?_, ?_, ?_, ?_⟩
  · intro f src h
    cases f with
    | mk hls dash =>
      cases hls
      · simp [shakaLoaderCanPlay, shakaLoaderSupported] at h
      · rfl
  · intro src; rfl
  · intro f src h
    cases f with
    | mk hls dash =>
      cases hls
      · simp [shakaLoaderCanPlay, shakaLoaderSupported] at h
      · rfl
  · rfl
  · rfl

/-- Witness for C9 at a concrete HLS-supported environment and HLS
source. -/
theorem shaka_C9_witness :
    ({ hls := true, dash := false } : SupportFlags).hls = true
    ∧ shakaProviderSupported { hls := true, dash := false } = true :=
  ⟨shaka_C9_canplay_stronger.1 { hls := true, dash := false }
      { isHLS := true, isDASH := false } rfl,
   shaka_C9_canplay_stronger.2.2.1 { hls := true, dash := false }
      { isHLS := true, isDASH := false } rfl⟩

/-- The length of the forEach trace equals the length of the filtered
variant list, whatever the starting index. -/
lemma addQualityEffects_length (l : List Track) (s : Nat) :
    (addQualityEffects l s).length = l.length := by
  induction l generalizing s with
  | nil => rfl
  | cons t rest ih => simp [addQualityEffects, ih]

/-- Indexing the forEach trace: position i holds the quality built from
the filtered variant at position i with running index s + i. -/
lemma addQualityEffects_getq (l : List Track) (s i : Nat) :
    (addQualityEffects l s)[i]?
      = (l[i]?).map (fun t => Effect.addQuality (mkShakaQuality t (s + i))) := by
  induction l generalizing s i with
  | nil => simp [addQualityEffects]
  | cons t rest ih =>
    cases i with
    | zero => simp [addQualityEffects]
    | succ j =>
      have harith : s + 1 + j = s + (j + 1) := by omega
      simp only [addQualityEffects, List.getElem?_cons_succ, ih (s + 1) j, harith]

/-- The quality record written with an explicit match on the track id. -/
lemma mkShakaQuality_fields (t : Track) (i : Nat) :
    mkShakaQuality t i
      = { id := match t.id with
               | some n => toString n
               | none => "dash-bitrate-" ++ toString i
          width := t.width.getD 0
          height := t.height.getD 0
          bitrate := t.bandwidth.getD 0
          codec := t.videoCodec
          index := i } := by
  cases h : t.id <;> simp [mkShakaQuality, h]

/-- C4: on trackschanged, exactly one quality is added per variant track
with non-null height, in order; the quality at filtered position i has
id equal to the track id rendered as a string (dash-bitrate-i when the
id is nullish), width, height and bitrate defaulting to 0 when nullish,
codec equal to the video codec, and index i; null-height variants
contribute nothing (removing them first leaves the trace unchanged). -/
theorem shaka_C4_tracks_changed (variants : List Track) :
    (onTracksChanged variants).length
      = (variants.filter (fun t => t.height.isSome)).length
    ∧ onTracksChanged (variants.filter (fun t => t.height.isSome)) = onTracksChanged variants
    ∧ ∀ i t, (variants.filter (fun t => t.height.isSome))[i]? = some t →
        (onTracksChanged variants)[i]?
          = some (Effect.addQuality
              { id := match t.id with
                     | some n => toString n
                     | none => "dash-bitrate-" ++ toString i
                width := t.width.getD 0
                height := t.height.getD 0
                bitrate := t.bandwidth.getD 0
                codec := t.videoCodec
                index := i }) := by
  refine ⟨?_, ?_, ?_⟩
  · simpa [onTracksChanged]
      using addQualityEffects_length (variants.filter (fun t => t.height.isSome)) 0
  · simp [onTracksChanged, List.filter_filter]
  · intro i t h
    simp only [onTracksChanged, addQualityEffects_getq, Nat.zero_add, h, Option.map_some']
    rw [mkShakaQuality_fields]

/-- A concrete variant list for the C4 witness: one full track, one with
null height, one with null id. -/
def c4variants : List Track :=
  [{ id := some 1, width := some 640, height := some 360,
     bandwidth := some 500000, videoCodec := some "avc1" },
   { id := some 9, width := none, height := none,
     bandwidth := none, videoCodec := none },
   { id := none, width := some 1280, height := some 720,
     bandwidth := none, videoCodec := some "hvc1" }]

/-- Witness for C4: the null-height track is skipped, and the null-id
track lands at filtered index 1 with the dash-bitrate fallback id. -/
theorem shaka_C4_witness :
    (onTracksChanged c4variants)[1]?
      = some (Effect.addQuality
          { id := "dash-bitrate-1", width := 1280, height := 720,
            bitrate := 0, codec := some "hvc1", index := 1 }) :=
  (shaka_C4_tracks_changed c4variants).2.2 1
    { id := none, width := some 1280, height := some 720,
      bandwidth := none, videoCodec := some "hvc1" }
    (by decide)

/-- C6: when a quality change fires with an instance present, auto off
and a quality selected, the controller disables abr and selects the
first variant track whose id rendered as a string equals the selected
id; it selects nothing when there is no instance, auto is on, nothing is
selected, or no variant matches; enabling auto quality configures
abr.enabled to true. -/
theorem shaka_C6_user_quality_change :
    (∀ variants s t, variants.find? (userQualityPred (some s)) = some t →
        onUserQualityChange true false (some s) variants
          = [Effect.configureAbr false, Effect.selectVariantTrack t]
        ∧ t.id.map (fun n => toString n) = some s)
    ∧ (∀ auto sel variants, onUserQualityChange false auto sel variants = [])
    ∧ (∀ sel variants, onUserQualityChange true true sel variants = [])
    ∧ (∀ variants, onUserQualityChange true false none variants = [])
    ∧ (∀ variants s, variants.find? (userQualityPred (some s)) = none →
        onUserQualityChange true false (some s) variants = [Effect.configureAbr false])
    ∧ enableAutoQuality true = [Effect.configureAbr true] := by
  refine ⟨?_, ?_, ?_, ?_, ?_, rfl⟩
  · intro variants s t h
    refine ⟨by simp [onUserQualityChange, disableAutoQuality, h], ?_⟩
    have hp := List.find?_some h
    simpa [userQualityPred] using hp
  · intro auto sel variants
    simp [onUserQualityChange]
  · intro sel variants
    simp [onUserQualityChange]
  · intro variants
    simp [onUserQualityChange]
  · intro variants s h
    simp [onUserQualityChange, disableAutoQuality, h]

/-- The matching track of the C6 witness. -/
def c6track : Track :=
  { id := some 7, width := some 1, height := some 2,
    bandwidth := some 3, videoCodec := none }

/-- The variant list of the C6 witness: a null-id track followed by the
matching track. -/
def c6variants : List Track :=
  [{ id := none, width := none, height := none, bandwidth := none, videoCodec := none },
   c6track]

/-- Witness for C6: a selected id 7 finds and selects the id-7 track
after disabling abr, and a selected id 9 only disables abr. -/
theorem shaka_C6_witness :
    onUserQualityChange true false (some "7") c6variants
      = [Effect.configureAbr false, Effect.selectVariantTrack c6track]
    ∧ onUserQualityChange true false (some "9") c6variants = [Effect.configureAbr false] :=
  ⟨(shaka_C6_user_quality_change.1 c6variants "7" c6track (by decide)).1,
   shaka_C6_user_quality_change.2.2.2.2.1 c6variants "9" (by decide)⟩

/-- C2: constructor resolution order of ShakaLibLoader. A string library
loads the remote script and takes window.shaka.Player; a constructor
reference is used directly; a namespace object yields its Player
property; a loader function is invoked and its default export used,
unwrapping a namespace default; a failing string load yields no
constructor and never reaches the import path (resolution coincides with
the script loader alone). -/
theorem shaka_C2_ctor_resolution :
    (∀ u env, (resolveShakaCtor (ShakaLib.str u) env).1
        = (if env.scriptLoadOk then env.windowPlayer else none))
    ∧ (∀ u env, resolveShakaCtor (ShakaLib.str u) env = loadShakaScript (ShakaLib.str u) env)
    ∧ (∀ c env, (resolveShakaCtor (ShakaLib.imported (ImportLib.ctorRef c)) env).1 = some c)
    ∧ (∀ p env, (resolveShakaCtor (ShakaLib.imported (ImportLib.nsObj p)) env).1 = some p)
    ∧ (∀ c env, (resolveShakaCtor
          (ShakaLib.imported (ImportLib.loaderFn
            (ImportOutcome.ok (some (DefaultExport.ctorE c))))) env).1 = some c)
    ∧ (∀ p env, (resolveShakaCtor
          (ShakaLib.imported (ImportLib.loaderFn
            (ImportOutcome.ok (some (DefaultExport.nsE p))))) env).1 = some p)
    ∧ (∀ env, (resolveShakaCtor
          (ShakaLib.imported (ImportLib.loaderFn ImportOutcome.throws)) env).1 = none)
    ∧ (∀ env, (resolveShakaCtor
          (ShakaLib.imported (ImportLib.loaderFn (ImportOutcome.ok none))) env).1 = none) := by
  refine ⟨?_, ?_, ?_, ?_, ?_, ?_, ?_, ?_⟩
  · intro u env
    cases env with
    | mk ok wp bs =>
      cases ok <;> cases wp <;>
        simp [resolveShakaCtor, loadShakaScript, ShakaLib.isStr]
  · intro u env
    simp [resolveShakaCtor, ShakaLib.isStr]
  · intro c env
    simp [resolveShakaCtor, loadShakaScript, importShaka, ShakaLib.isStr]
  · intro p env
    simp [resolveShakaCtor, loadShakaScript, importShaka, ShakaLib.isStr]
  · intro c env
    simp [resolveShakaCtor, loadShakaScript, importShaka, ShakaLib.isStr]
  · intro p env
    simp [resolveShakaCtor, loadShakaScript, importShaka, ShakaLib.isStr]
  · intro env
    simp [resolveShakaCtor, loadShakaScript, importShaka, ShakaLib.isStr]
  · intro env
    simp [resolveShakaCtor, loadShakaScript, importShaka, ShakaLib.isStr]

/-- Counting callback invocations in the mapped callback list. -/
lemma count_map_callbackInvoked (cbs : List Nat) (id : Nat) :
    (cbs.map Effect.callbackInvoked).count (Effect.callbackInvoked id) = cbs.count id := by
  induction cbs with
  | nil => rfl
  | cons a l ih =>
    simp [List.count_cons, ih]

/-- The mapped callback list holds no newInstance effect. -/
lemma count_map_callbackInvoked_newInstance (cbs : List Nat) :
    (cbs.map Effect.callbackInvoked).count Effect.newInstance = 0 := by
  induction cbs with
  | nil => rfl
  | cons a l ih =>
    simp [List.count_cons, ih]

/-- C7: after the constructor is obtained, the provider setup callback
constructs exactly one player instance, hands the config through
unchanged to configure, and invokes each previously registered
onInstance callback exactly once, all before the instance is attached. -/
theorem shaka_C7_provider_setup (config : ShakaConfig) (cbs : List Nat) (src : Option String) :
    (providerSetupOnLoaded config cbs src).count Effect.newInstance = 1
    ∧ Effect.configureInstance config ∈ providerSetupOnLoaded config cbs src
    ∧ (cbs.Nodup → ∀ id ∈ cbs,
        (providerSetupOnLoaded config cbs src).count (Effect.callbackInvoked id) = 1)
    ∧ ∃ pre post,
        providerSetupOnLoaded config cbs src = pre ++ Effect.attach :: post
        ∧ Effect.attach ∉ pre
        ∧ (∀ id, pre.count (Effect.callbackInvoked id) = cbs.count id)
        ∧ (∀ id, post.count (Effect.callbackInvoked id) = 0) := by
  have hcopy : shallowCopyConfig config = config := rfl
  refine ⟨?_, ?_, ?_, ?_⟩
  · cases src <;>
      simp [providerSetupOnLoaded, shakaControllerSetup, shakaLibEventNameValues,
        List.count_append, List.count_cons, count_map_callbackInvoked_newInstance]
  · rw [← hcopy]
    simp [providerSetupOnLoaded, shakaControllerSetup]
    exact Or.inl rfl
  · intro hnd id hid
    have hcount : cbs.count id = 1 := List.count_eq_one_of_mem hnd hid
    cases src <;>
      simp [providerSetupOnLoaded, shakaControllerSetup, shakaLibEventNameValues,
        List.count_append, List.count_cons, count_map_callbackInvoked, hcount]
  · refine ⟨[Effect.polyfillInstallAll, Effect.newInstance]
        ++ shakaLibEventNameValues.map (fun n => Effect.listen n Handler.dispatcher)
        ++ [Effect.listen "error" Handler.onErrorH]
        ++ cbs.map Effect.callbackInvoked,
      [Effect.hostDispatch "shaka-instance" Detail.inst,
       Effect.configureInstance (shallowCopyConfig config),
       Effect.listen "manifestupdated" Handler.onManifestUpdatedH,
       Effect.listen "loaded" Handler.onLoadedH,
       Effect.listen "trackschanged" Handler.onTracksChangedH,
       Effect.listen "variantchanged" Handler.onVariantChangedH,
       Effect.listen "adaptation" Handler.onVariantChangedH,
       Effect.setEnableAutoHook,
       Effect.listenQualitiesChange]
        ++ [Effect.notifyProviderSetup]
        ++ (match src with
            | some s => [Effect.loadSrc s]
            | none => []), ?_, ?_, ?_, ?_⟩
    · simp [providerSetupOnLoaded, shakaControllerSetup]
    · simp [shakaLibEventNameValues, List.mem_append, List.mem_map]
    · intro id
      simp [shakaLibEventNameValues, List.count_append, List.count_cons,
        count_map_callbackInvoked]
    · intro id
      cases src <;> simp [List.count_append, List.count_cons]

/-- Witness for C7 at two distinct registered callbacks: each is invoked
exactly once in the setup trace. -/
theorem shaka_C7_witness :
    (providerSetupOnLoaded { fields := [] } [5, 9] (some "u")).count
        (Effect.callbackInvoked 5) = 1
    ∧ (providerSetupOnLoaded { fields := [] } [5, 9] (some "u")).count
        (Effect.callbackInvoked 9) = 1 :=
  ⟨(shaka_C7_provider_setup { fields := [] } [5, 9] (some "u")).2.2.1
      (by decide) 5 (by decide),
   (shaka_C7_provider_setup { fields := [] } [5, 9] (some "u")).2.2.1
      (by decide) 9 (by decide)⟩

/-- Whenever resolution yields a constructor, the success callback has
already been invoked with that constructor inside the resolution trace
(through the onLoaded handler). -/
lemma resolve_some_trace (lib : ShakaLib) (env : LoadEnv) (c : Ctor)
    (h : (resolveShakaCtor lib env).1 = some c) :
    LoadEv.callbackInvoked c ∈ (resolveShakaCtor lib env).2 := by
  cases lib with
  | str u =>
    cases env with
    | mk ok wp bs =>
      cases ok with
      | false =>
        simp [resolveShakaCtor, loadShakaScript, ShakaLib.isStr] at h
      | true =>
        cases wp with
        | none => simp [resolveShakaCtor, loadShakaScript, ShakaLib.isStr] at h
        | some c0 =>
          simp [resolveShakaCtor, loadShakaScript, ShakaLib.isStr] at h
          subst h
          simp [resolveShakaCtor, loadShakaScript, ShakaLib.isStr,
            onLoadStartEvs, onLoadedEvs]
  | imported l =>
    cases l with
    | undef =>
      simp [resolveShakaCtor, loadShakaScript, importShaka, ShakaLib.isStr] at h
    | ctorRef c0 =>
      simp [resolveShakaCtor, loadShakaScript, importShaka, ShakaLib.isStr] at h
      subst h
      simp [resolveShakaCtor, loadShakaScript, importShaka, ShakaLib.isStr,
        onLoadStartEvs, onLoadedEvs]
    | nsObj p =>
      simp [resolveShakaCtor, loadShakaScript, importShaka, ShakaLib.isStr] at h
      subst h
      simp [resolveShakaCtor, loadShakaScript, importShaka, ShakaLib.isStr,
        onLoadStartEvs, onLoadedEvs]
    | loaderFn o =>
      cases o with
      | throws =>
        simp [resolveShakaCtor, loadShakaScript, importShaka, ShakaLib.isStr] at h
      | ok d =>
        cases d with
        | none =>
          simp [resolveShakaCtor, loadShakaScript, importShaka, ShakaLib.isStr] at h
        | some de =>
          cases de with
          | ctorE c0 =>
            simp [resolveShakaCtor, loadShakaScript, importShaka, ShakaLib.isStr] at h
            subst h
            simp [resolveShakaCtor, loadShakaScript, importShaka, ShakaLib.isStr,
              onLoadStartEvs, onLoadedEvs]
          | nsE p =>
            simp [resolveShakaCtor, loadShakaScript, importShaka, ShakaLib.isStr] at h
            subst h
            simp [resolveShakaCtor, loadShakaScript, importShaka, ShakaLib.isStr,
              onLoadStartEvs, onLoadedEvs]

/-- The load environment of the C10 counterexample: the script loads,
window.shaka.Player is a function, and the browser reports unsupported. -/
def c10env : LoadEnv :=
  { scriptLoadOk := true, windowPlayer := some { num := 0 }, browserSupported := false }

/-- Counterexample to C10: in the unsupported case the success callback
has already been invoked with the resolved constructor before the
shaka-unsupported dispatch, so it is not true that the callback is never
invoked there. -/
theorem shaka_C10_counterexample :
    c10env.browserSupported = false
    ∧ LoadEv.callbackInvoked { num := 0 } ∈ (startLoading (ShakaLib.str "u") c10env).2
    ∧ LoadEv.domEvent "shaka-unsupported" ∈ (startLoading (ShakaLib.str "u") c10env).2 := by
  decide

/-- C10 as amended: a failed resolution (script error, missing window
constructor, rejected or invalid dynamic import) never invokes the
success callback and dispatches shaka-lib-load-error plus an error
notification with code 4; an unsupported browser dispatches
shaka-unsupported plus an error notification with code 4 and yields no
constructor, but the success callback has already been invoked with the
resolved constructor by then. -/
theorem shaka_C10_load_failure_paths :
    (∀ u env, env.scriptLoadOk = false →
        LoadEv.domEvent "shaka-lib-load-error" ∈ (startLoading (ShakaLib.str u) env).2
        ∧ LoadEv.notifyError 4 ∈ (startLoading (ShakaLib.str u) env).2
        ∧ ∀ c, LoadEv.callbackInvoked c ∉ (startLoading (ShakaLib.str u) env).2)
    ∧ (∀ u env, env.scriptLoadOk = true → env.windowPlayer = none →
        LoadEv.domEvent "shaka-lib-load-error" ∈ (startLoading (ShakaLib.str u) env).2
        ∧ LoadEv.notifyError 4 ∈ (startLoading (ShakaLib.str u) env).2
        ∧ ∀ c, LoadEv.callbackInvoked c ∉ (startLoading (ShakaLib.str u) env).2)
    ∧ (∀ env o, o = ImportOutcome.throws ∨ o = ImportOutcome.ok none →
        LoadEv.domEvent "shaka-lib-load-error"
          ∈ (startLoading (ShakaLib.imported (ImportLib.loaderFn o)) env).2
        ∧ LoadEv.notifyError 4
            ∈ (startLoading (ShakaLib.imported (ImportLib.loaderFn o)) env).2
        ∧ ∀ c, LoadEv.callbackInvoked c
            ∉ (startLoading (ShakaLib.imported (ImportLib.loaderFn o)) env).2)
    ∧ (∀ lib env c, (resolveShakaCtor lib env).1 = some c →
        env.browserSupported = false →
        (startLoading lib env).1 = none
        ∧ LoadEv.domEvent "shaka-unsupported" ∈ (startLoading lib env).2
        ∧ LoadEv.notifyError 4 ∈ (startLoading lib env).2
        ∧ LoadEv.callbackInvoked c ∈ (startLoading lib env).2) := by
  refine ⟨?_, ?_, ?_, ?_⟩
  · intro u env hok
    cases env with
    | mk ok wp bs =>
      simp at hok
      subst hok
      refine ⟨?_, ?_, ?_⟩ <;>
        simp [startLoading, resolveShakaCtor, loadShakaScript, ShakaLib.isStr,
          onLoadStartEvs, onLoadErrorEvs]
  · intro u env hok hwp
    cases env with
    | mk ok wp bs =>
      simp at hok hwp
      subst hok
      subst hwp
      refine ⟨?_, ?_, ?_⟩ <;>
        simp [startLoading, resolveShakaCtor, loadShakaScript, ShakaLib.isStr,
          onLoadStartEvs, onLoadErrorEvs]
  · intro env o ho
    cases ho with
    | inl h =>
      subst h
      refine ⟨?_, ?_, ?_⟩ <;>
        simp [startLoading, resolveShakaCtor, loadShakaScript, importShaka,
          ShakaLib.isStr, onLoadStartEvs, onLoadErrorEvs]
    | inr h =>
      subst h
      refine ⟨?_, ?_, ?_⟩ <;>
        simp [startLoading, resolveShakaCtor, loadShakaScript, importShaka,
          ShakaLib.isStr, onLoadStartEvs, onLoadErrorEvs]
  · intro lib env c hres hbs
    have hcb := resolve_some_trace lib env c hres
    refine ⟨?_, ?_, ?_, ?_⟩ <;>
      simp [startLoading, hres, hbs, List.mem_append, hcb]

/-- The failing load environment of the C10 witness: the script fails to
load. -/
def c10failEnv : LoadEnv :=
  { scriptLoadOk := false, windowPlayer := none, browserSupported := true }

/-- Witness for the amended C10 at concrete environments: a failed
script load dispatches the load error and never invokes the callback,
and an unsupported browser still sees the callback invoked while
yielding no constructor. -/
theorem shaka_C10_load_failure_paths_witness :
    LoadEv.domEvent "shaka-lib-load-error" ∈ (startLoading (ShakaLib.str "u") c10failEnv).2
    ∧ LoadEv.callbackInvoked { num := 0 } ∉ (startLoading (ShakaLib.str "u") c10failEnv).2
    ∧ (startLoading (ShakaLib.str "u") c10env).1 = none
    ∧ LoadEv.callbackInvoked { num := 0 } ∈ (startLoading (ShakaLib.str "u") c10env).2 :=
  ⟨(shaka_C10_load_failure_paths.1 "u" c10failEnv rfl).1,
   (shaka_C10_load_failure_paths.1 "u" c10failEnv rfl).2.2 { num := 0 },
   (shaka_C10_load_failure_paths.2.2.2 (ShakaLib.str "u") c10env { num := 0 }
      (by decide) rfl).1,
   (shaka_C10_load_failure_paths.2.2.2 (ShakaLib.str "u") c10env { num := 0 }
      (by decide) rfl).2.2.2⟩
